import Mathlib

/-!
Verification of the card-forge plugin core (src/main.ts): metadata
resolution, card layout, export-path construction, export pipeline, and
the numbering batch.  Definitions are shallow embeddings of the
TypeScript source; JavaScript string and number semantics are made
explicit where the source relies on them (template literals, `slice`,
`Math.max` coercion, `typeof` checks).
-/

namespace CardForge

/-- A dynamic frontmatter value as it can appear for the `card-number`
key: an integral JS number, the JS number `NaN`, or a string.  The
TypeScript source reads these values untyped, so operations on them are
modelled per JS semantics. -/
inductive FmVal where
  | vnum (n : Int)
  | vNaN
  | vstr (s : String)
deriving DecidableEq, Repr

/-- Whether the value is an integral number (the well-typed case). -/
def FmVal.isInt : FmVal → Bool
  | .vnum _ => true
  | _ => false

/-- View of a document frontmatter block restricted to the keys the
plugin reads: `card-type`, `card-title`, `card-number`, `card-image`,
and `cssclasses`. -/
structure Frontmatter where
  cardType : Option String := none
  cardTitle : Option String := none
  cardNumber : Option FmVal := none
  cardImage : Option String := none
  cssclasses : Option String := none
deriving DecidableEq, Repr

/-! ### JS string helpers used by the source -/

/-- Models the JS expression `s.slice(-3)`: the last three characters
(the whole string when it is shorter). -/
def jsSliceLast3 (s : String) : String :=
  ⟨s.data.drop (s.data.length - 3)⟩

/-- Models `s.toLowerCase()` on the ASCII fragment. -/
def jsToLowerCase (s : String) : String :=
  ⟨s.data.map Char.toLower⟩

/-- Models `s.replace(/ /g, "-")`: every space becomes a hyphen. -/
def jsReplaceSpaces (s : String) : String :=
  ⟨s.data.map fun c => if c = ' ' then '-' else c⟩

/-- Models `s.replace(/^\/+/, "")`: strip all leading slashes. -/
def stripLeadingSlashes (s : String) : String :=
  ⟨s.data.dropWhile (· == '/')⟩

/-- Models `s.replace(/^!/, "")`: strip one leading exclamation mark. -/
def stripLeadingBang (s : String) : String :=
  match s.data with
  | '!' :: rest => ⟨rest⟩
  | _ => s

/-- Models `s.startsWith("./")`. -/
def startsWithDotSlash (s : String) : Bool :=
  match s.data with
  | '.' :: '/' :: _ => true
  | _ => false

/-- Models `s.slice(2)`. -/
def dropFirstTwo (s : String) : String :=
  ⟨s.data.drop 2⟩

/-! ### JS number helpers -/

/-- A JS number restricted to the values arising here: an integer or
`NaN` (`none`). -/
abbrev JsNum := Option Int

/-- Models the template literal ``` `${n}` ``` for a JS number:
decimal form, or `"NaN"`. -/
def jsNumToString : JsNum → String
  | some n => Int.repr n
  | none => "NaN"

/-- Models the source padding expression
``n <= 999 ? `00${n}`.slice(-3) : `${n}` `` (src/main.ts:290 and
src/main.ts:367).  Any comparison with `NaN` is false, so `NaN`
renders as `"NaN"`. -/
def padNum : JsNum → String
  | some n => if n ≤ 999 then jsSliceLast3 ("00" ++ Int.repr n) else Int.repr n
  | none => jsNumToString none

/-- JS `ToNumber` coercion as applied by `Math.max`, on the fragment
exercised here: an empty string is `0`, a decimal-digit string is its
value, any other string is `NaN`. -/
def jsToNumber : FmVal → JsNum
  | .vnum n => some n
  | .vNaN => none
  | .vstr s =>
    if s.data = [] then some 0
    else if s.data.all Char.isDigit then
      some (Int.ofNat (s.data.foldl (fun a c => a * 10 + (c.toNat - 48)) 0))
    else none

/-- Models the JS expression `v + 1` for a dynamic value: numeric
addition for numbers, string concatenation when the value is a
string, `NaN` stays `NaN`. -/
def jsAdd1 : FmVal → FmVal
  | .vnum n => .vnum (n + 1)
  | .vNaN => .vNaN
  | .vstr s => .vstr (s ++ "1")

/-- Models `Math.max(a, b)` on two JS numbers: `NaN` is absorbing. -/
def jsMax (a b : JsNum) : JsNum :=
  match a, b with
  | some x, some y => some (max x y)
  | _, _ => none

/-! ### Metadata resolution (renderCard, src/main.ts:267-303) -/

/-- The visual tree built by `renderCard`: header text, body text,
footer type text, optional footer number text, optional extra css
class. -/
structure CardView where
  header : String
  body : String
  typeText : String
  numberText : Option String
  extraClass : Option String
deriving DecidableEq, Repr

/-- Embedding of `renderCard` (src/main.ts:267-303) as the card view it
constructs.  The header shows `card-title` or, when that is absent or
empty (JS falsy), the document base name; the footer type shows
`card-type` or the empty string; the footer number region exists only
when `card-number` is present and `typeof` it is `"number"` (which
includes `NaN`), padded per `padNum`. -/
def renderCard (fm : Frontmatter) (basename bodyText : String) : CardView :=
  { header :=
      match fm.cardTitle with
      | some t => if t = "" then basename else t
      | none => basename
    body := bodyText
    typeText := fm.cardType.getD ""
    numberText :=
      match fm.cardNumber with
      | some (.vnum n) => some (padNum (some n))
      | some .vNaN => some (padNum none)
      | _ => none
    extraClass :=
      match fm.cssclasses with
      | some c => if c = "" then none else some c
      | none => none }

/-! ### Attachment folder resolution (src/main.ts:305-319) -/

/-- Embedding of `resolveAttachmentFolder` (src/main.ts:305-319).
`setting` is the host `attachmentFolderPath` config value (absent =
`undefined`), `parentPath` the path of the parent folder of the
document (absent = no parent). -/
def resolveAttachmentFolder (setting parentPath : Option String) : String :=
  match setting with
  | none => parentPath.getD ""
  | some s =>
    if s = "" then parentPath.getD ""
    else if startsWithDotSlash s then
      match parentPath with
      | some p => p ++ "/" ++ dropFirstTwo s
      | none => dropFirstTwo s
    else s

/-! ### Export path construction (renderCardToFile, src/main.ts:361-374) -/

/-- The `cf_type` segment: `frontmatter["card-type"] || "unknown"`
(src/main.ts:363). -/
def cf_typeOf (fm : Frontmatter) : String :=
  match fm.cardType with
  | some s => if s = "" then "unknown" else s
  | none => "unknown"

/-- The `cf_num` value:
`typeof rawNum === "number" ? rawNum : 0` (src/main.ts:366).  `NaN`
passes the `typeof` check and stays `NaN` (`none`). -/
def cf_numOf (fm : Frontmatter) : JsNum :=
  match fm.cardNumber with
  | some (.vnum n) => some n
  | some .vNaN => none
  | _ => some 0

/-- The normalized base name:
`file.basename.toLowerCase().replace(/ /g, "-")` (src/main.ts:370). -/
def normalizeName (basename : String) : String :=
  jsReplaceSpaces (jsToLowerCase basename)

/-- The destination path computed by `renderCardToFile`
(src/main.ts:369-374). -/
def exportPath (setting parentPath : Option String) (fm : Frontmatter)
    (basename : String) : String :=
  stripLeadingSlashes
    (resolveAttachmentFolder setting parentPath
      ++ "/cf-" ++ cf_typeOf fm ++ "-" ++ padNum (cf_numOf fm)
      ++ "-" ++ normalizeName basename ++ ".png")

/-! ### Export pipeline (renderCardToFile, src/main.ts:348-392) -/

/-- Modelled from the spec: host link-text generation (§6, "given a
target asset and a referencing document, produce a relative link
string"); the implementation lives in the host application, not in
src/.  Modelled as an embed wikilink to the target path. -/
def generateMarkdownLink (targetPath sourcePath : String) : String :=
  "![[" ++ targetPath ++ "]]"

/-- The target of a stored wikilink: the text between the surrounding
double brackets. -/
def linkTarget (s : String) : String :=
  ⟨(s.data.drop 2).take ((s.data.drop 2).length - 2)⟩

/-- A write of image bytes performed against the vault: `createBinary`
for a fresh path, `modifyBinary` for an existing one
(src/main.ts:376-381). -/
inductive WriteAction where
  | created (path : String)
  | modified (path : String)
deriving DecidableEq, Repr

/-- The path a write action targets. -/
def WriteAction.path : WriteAction → String
  | .created p => p
  | .modified p => p

/-- Observable outcome of one `renderCardToFile` run that returned
normally: the write performed (if any), the value stored into the
`card-image` frontmatter field (if the update ran), and whether a
failure notice was shown. -/
structure ExportResult where
  write : Option WriteAction := none
  newImage : Option String := none
  reported : Bool := false
deriving DecidableEq, Repr

/-- The environment one `renderCardToFile` call runs in: the capture
result (`none` = the rasterizer returned `null`), the document
frontmatter, base name and path, the host attachment-folder setting,
the parent folder, which paths already exist, and whether the vault
write succeeds.  A failing write is modelled from the spec
(§7 `PersistenceFailure`, "write to storage failed"): the host vault
API is not part of src/, and a failed write surfaces as a thrown
(rejected) error. -/
structure ExportEnv where
  blob : Option (List Nat)
  fm : Frontmatter
  basename : String
  filePath : String
  attachmentSetting : Option String
  parentPath : Option String
  pathExists : String → Bool
  writeOk : Bool

/-- Embedding of `renderCardToFile` (src/main.ts:348-392).  A `null`
capture is reported and the call returns with no write and no
frontmatter update (src/main.ts:356-359).  Otherwise the destination
path is computed, the bytes are written (modify when the path exists,
create otherwise); a failing write propagates as `.error`.  Only after
the write returns is the `card-image` field set to the generated link
with a leading `!` stripped (src/main.ts:383-391). -/
def renderCardToFile (env : ExportEnv) : Except Unit ExportResult :=
  match env.blob with
  | none => .ok { write := none, newImage := none, reported := true }
  | some _ =>
    let path := exportPath env.attachmentSetting env.parentPath env.fm env.basename
    if env.writeOk then
      .ok { write := some (if env.pathExists path then .modified path else .created path)
            newImage := some (stripLeadingBang (generateMarkdownLink path env.filePath))
            reported := false }
    else
      .error ()

/-- Embedding of the loop body of `renderTaggedCards`
(src/main.ts:130-141): the files are processed in order; the loop has
no per-item catch, so an `.error` from `renderCardToFile` propagates
(the `finally` only hides the progress notice) and the remaining files
are never processed.  Returns the results of the items that ran and
whether the batch aborted. -/
def renderTaggedCards : List ExportEnv → List ExportResult × Bool
  | [] => ([], false)
  | e :: rest =>
    match renderCardToFile e with
    | .error _ => ([], true)
    | .ok r =>
      let p := renderTaggedCards rest
      (r :: p.1, p.2)

/-! ### Numbering batch (numberCards, src/main.ts:143-166) -/

/-- One step of the seed loop (src/main.ts:148-154): for a present
`card-number` value, `nextNum = Math.max(nextNum, cardNum + 1)` with
JS coercion; an absent value leaves the accumulator alone.  The source
has no `typeof` check here, so string values participate. -/
def seedStep (acc : JsNum) (fm : Frontmatter) : JsNum :=
  match fm.cardNumber with
  | none => acc
  | some v => jsMax acc (jsToNumber (jsAdd1 v))

/-- The counter value after the seed loop, starting from `1`
(src/main.ts:145-154). -/
def numberSeed (files : List Frontmatter) : JsNum :=
  files.foldl seedStep (some 1)

/-- The frontmatter value written for the current counter. -/
def ofJsNum : JsNum → FmVal
  | some k => .vnum k
  | none => .vNaN

/-- The assignment loop (src/main.ts:156-165): each file whose
`card-number` is strictly `undefined` receives the counter value, and
the counter increments; any present value (of any type) is skipped. -/
def assignLoop : JsNum → List Frontmatter → List Frontmatter
  | _, [] => []
  | next, fm :: rest =>
    match fm.cardNumber with
    | none => { fm with cardNumber := some (ofJsNum next) } :: assignLoop (next.map (· + 1)) rest
    | some _ => fm :: assignLoop next rest

/-- Embedding of `numberCards` (src/main.ts:143-166), acting on the
frontmatter views of the tagged files in iteration order. -/
def numberCards (files : List Frontmatter) : List Frontmatter :=
  assignLoop (numberSeed files) files

/-- Refinement reference for the numbering claim, following the words
of the spec (§4.4): assign consecutive integers, from the given
counter, to exactly the qualifying documents lacking a number field,
in iteration order. -/
def assignFrom : Int → List Frontmatter → List Frontmatter
  | _, [] => []
  | k, fm :: rest =>
    match fm.cardNumber with
    | none => { fm with cardNumber := some (.vnum k) } :: assignFrom (k + 1) rest
    | some _ => fm :: assignFrom k rest

/-- One step of the spec-side maximum of the existing numeric number
fields. -/
def maxStep (a : Int) (fm : Frontmatter) : Int :=
  match fm.cardNumber with
  | some (.vnum n) => max a n
  | _ => a

/-- The maximum of the existing numeric number fields across the set,
default `0` (spec §4.4). -/
def maxExisting (files : List Frontmatter) : Int :=
  files.foldl maxStep 0

/-- All present `card-number` values in the set are integral numbers:
the well-typed situation the spec data model describes. -/
def wellNumbered (files : List Frontmatter) : Bool :=
  files.all fun fm =>
    match fm.cardNumber with
    | some v => v.isInt
    | none => true

/-! ## Helper lemmas -/

theorem length_le_toDigitsCore (b : Nat) :
    ∀ (f n : Nat) (l : List Char), l.length ≤ (Nat.toDigitsCore b f n l).length := by
  intro f
  induction f with
  | zero => intro n l; simp [Nat.toDigitsCore]
  | succ f ih =>
    intro n l
    simp only [Nat.toDigitsCore]
    split
    · simp
    · exact le_trans (by simp) (ih _ _)

theorem one_le_repr_length (n : Nat) : 1 ≤ (Nat.repr n).length := by
  show 1 ≤ (Nat.toDigits 10 n).asString.length
  have hlen : ∀ l : List Char, (List.asString l).length = l.length := fun _ => rfl
  rw [hlen]
  show 1 ≤ (Nat.toDigitsCore 10 (n + 1) n []).length
  simp only [Nat.toDigitsCore]
  split
  · simp
  · exact le_trans (by simp) (length_le_toDigitsCore 10 _ _ _)

theorem repr_length_le_three (n : Nat) (h : n ≤ 999) : (Nat.repr n).length ≤ 3 :=
  Nat.repr_length n 3 (by norm_num) (by omega)

/-- The padded form of a number below 1000 is its decimal form
left-padded with zeroes. -/
theorem padNum_padded (n : Nat) (h : n ≤ 999) :
    (padNum (some (n : Int))).data
      = List.replicate (3 - (Nat.repr n).length) '0' ++ (Nat.repr n).data := by
  have hle : (Nat.repr n).length ≤ 3 := repr_length_le_three n h
  have hge : 1 ≤ (Nat.repr n).length := one_le_repr_length n
  have hcast : ((n : Int) ≤ 999) := by exact_mod_cast h
  have hrepr : Int.repr (n : Int) = Nat.repr n := rfl
  have hdl : (Nat.repr n).data.length = (Nat.repr n).length := rfl
  simp only [padNum, if_pos hcast, hrepr, jsSliceLast3, String.data_append]
  have h3 : (Nat.repr n).data.length = 1 ∨ (Nat.repr n).data.length = 2 ∨
      (Nat.repr n).data.length = 3 := by omega
  obtain h1 | h1 | h1 := h3 <;>
    simp [List.length_append, h1, ← hdl, List.replicate, List.drop]

/-- Claim C2: for every non-negative integer n, the padded rendering (the
shared expression of src/main.ts:290 and src/main.ts:367, embedded as
`padNum`) is the decimal form zero-padded on the left to exactly 3
characters when n is at most 999, and the bare decimal form when n
exceeds 999. -/
theorem padNum_spec (n : Nat) :
    (n ≤ 999 →
      (padNum (some (n : Int))).length = 3 ∧
      (padNum (some (n : Int))).data
        = List.replicate (3 - (Nat.repr n).length) '0' ++ (Nat.repr n).data) ∧
    (999 < n → padNum (some (n : Int)) = Nat.repr n) := by
  constructor
  · intro h
    have hpad := padNum_padded n h
    refine ⟨?_, hpad⟩
    have hle : (Nat.repr n).length ≤ 3 := repr_length_le_three n h
    have hge : 1 ≤ (Nat.repr n).length := one_le_repr_length n
    have hdl : (Nat.repr n).data.length = (Nat.repr n).length := rfl
    show (padNum (some (n : Int))).data.length = 3
    rw [hpad]
    simp only [List.length_append, List.length_replicate]
    omega
  · intro h
    have hcast : ¬ ((n : Int) ≤ 999) := by omega
    show (if (n : Int) ≤ 999 then jsSliceLast3 ("00" ++ Int.repr (n : Int))
        else Int.repr (n : Int)) = Nat.repr n
    rw [if_neg hcast]
    rfl

/-- Witness for C2 at the inputs named by the claim. -/
theorem padNum_spec_witness :
    ((7 : Nat) ≤ 999 ∧
      (padNum (some ((7 : Nat) : Int))).length = 3 ∧
      (padNum (some ((7 : Nat) : Int))).data
        = List.replicate (3 - (Nat.repr 7).length) '0' ++ (Nat.repr 7).data) ∧
    ((999 : Nat) < 1000 ∧ padNum (some ((1000 : Nat) : Int)) = Nat.repr 1000) :=
  ⟨⟨by decide, (padNum_spec 7).1 (by decide)⟩,
   ⟨by decide, (padNum_spec 1000).2 (by decide)⟩⟩

/-- Claim C9: attachment-folder resolution is the three-way function of the
host setting and the parent folder of the document described by the
spec. -/
theorem resolveAttachmentFolder_spec (setting : Option String) (p : String) :
    ((setting = none ∨ setting = some "") →
      resolveAttachmentFolder setting (some p) = p) ∧
    (∀ s, setting = some s → s ≠ "" → startsWithDotSlash s = true →
      resolveAttachmentFolder setting (some p) = p ++ "/" ++ dropFirstTwo s) ∧
    (∀ s, setting = some s → s ≠ "" → startsWithDotSlash s = false →
      resolveAttachmentFolder setting (some p) = s) := by
  refine ⟨?_, ?_, ?_⟩
  · rintro (h | h) <;> subst h <;> simp [resolveAttachmentFolder]
  · rintro s rfl hne hds
    simp [resolveAttachmentFolder, hne, hds]
  · rintro s rfl hne hds
    simp [resolveAttachmentFolder, hne, hds]

/-- Witness for C9: setting `./img`, parent folder `notes`. -/
theorem resolveAttachmentFolder_spec_witness :
    (some "./img" = some "./img") ∧ ("./img" : String) ≠ "" ∧
    startsWithDotSlash "./img" = true ∧
    resolveAttachmentFolder (some "./img") (some "notes")
      = "notes" ++ "/" ++ dropFirstTwo "./img" :=
  ⟨rfl, by decide, by decide,
    (resolveAttachmentFolder_spec (some "./img") "notes").2.1 "./img" rfl
      (by decide) (by decide)⟩

/-- Claim C10: a missing or empty type field yields the literal segment
`unknown` in the export path while the rendered footer shows an empty
type; a missing or string-valued number field yields the padded
segment `000` in the export path while the rendered footer omits the
number region. -/
theorem export_defaults_spec (fm : Frontmatter) (b body : String) :
    ((fm.cardType = none ∨ fm.cardType = some "") →
      cf_typeOf fm = "unknown" ∧ (renderCard fm b body).typeText = "") ∧
    ((fm.cardNumber = none ∨ (∃ s, fm.cardNumber = some (.vstr s))) →
      padNum (cf_numOf fm) = "000" ∧ (renderCard fm b body).numberText = none) := by
  constructor
  · rintro (h | h) <;> simp [cf_typeOf, renderCard, h]
  · rintro (h | ⟨s, h⟩) <;> refine ⟨?_, by simp [renderCard, h]⟩ <;>
      · have : cf_numOf fm = some 0 := by simp [cf_numOf, h]
        rw [this]
        decide

/-- Witness for C10: no type field, number field holding the string
`"5"`. -/
theorem export_defaults_spec_witness :
    ((⟨none, none, some (.vstr "5"), none, none⟩ : Frontmatter).cardType = none ∧
      cf_typeOf ⟨none, none, some (.vstr "5"), none, none⟩ = "unknown" ∧
      (renderCard ⟨none, none, some (.vstr "5"), none, none⟩ "b" "x").typeText = "") ∧
    (cf_numOf ⟨none, none, some (.vstr "5"), none, none⟩ = some 0 ∧
      padNum (cf_numOf ⟨none, none, some (.vstr "5"), none, none⟩) = "000" ∧
      (renderCard ⟨none, none, some (.vstr "5"), none, none⟩ "b" "x").numberText = none) :=
  ⟨⟨rfl,
    (export_defaults_spec ⟨none, none, some (.vstr "5"), none, none⟩ "b" "x").1
      (Or.inl rfl)⟩,
   ⟨rfl, (export_defaults_spec ⟨none, none, some (.vstr "5"), none, none⟩ "b" "x").2
      (Or.inr ⟨"5", rfl⟩)⟩⟩

/-- Claim C7: when the capture step yields no data, the export returns after
reporting, with no write performed and the image back-reference left
unchanged; and whenever a back-reference value is produced at all, a
successful write happened. -/
theorem capture_failure_spec (env : ExportEnv) :
    (env.blob = none →
      renderCardToFile env
        = .ok { write := none, newImage := none, reported := true }) ∧
    (∀ r, renderCardToFile env = .ok r → r.newImage.isSome →
      r.write.isSome ∧ env.writeOk = true) := by
  constructor
  · intro h
    simp [renderCardToFile, h]
  · intro r hr him
    cases hb : env.blob with
    | none =>
      rw [renderCardToFile, hb] at hr
      cases hr
      simp at him
    | some bs =>
      rw [renderCardToFile, hb] at hr
      by_cases hw : env.writeOk
      · simp only [hw, if_true] at hr
        cases hr
        exact ⟨rfl, hw⟩
      · simp [hw] at hr

theorem stripLeadingSlashes_of_head (s : String)
    (h : s.data.head? ≠ some '/') : stripLeadingSlashes s = s := by
  unfold stripLeadingSlashes
  cases s with
  | mk l =>
    cases l with
    | nil => rfl
    | cons c cs =>
      have hc : ¬ (c == '/') = true := by simpa using h
      simp [List.dropWhile_cons, hc]

theorem write_path_eq (env : ExportEnv) (r : ExportResult) (w : WriteAction)
    (hr : renderCardToFile env = .ok r) (hw : r.write = some w) :
    w.path = exportPath env.attachmentSetting env.parentPath env.fm env.basename := by
  cases hb : env.blob with
  | none =>
    rw [renderCardToFile, hb] at hr
    cases hr
    simp at hw
  | some bs =>
    rw [renderCardToFile, hb] at hr
    by_cases hwo : env.writeOk
    · simp only [hwo, if_true] at hr
      cases hr
      simp only [Option.some.injEq] at hw
      rw [← hw]
      by_cases hex :
          env.pathExists (exportPath env.attachmentSetting env.parentPath env.fm env.basename)
      · simp [hex, WriteAction.path]
      · simp [hex, WriteAction.path]
    · simp [hwo] at hr

/-- Claim C1: for a document with a non-empty type, an integral number field
and a resolved attachment folder that is non-empty and does not start
with a slash, the export writes to
`<folder>/cf-<type>-<padded number>-<normalized name>.png`, the
normalized name being the base name lower-cased with every space
replaced by a hyphen. -/
theorem export_writes_computed_path (env : ExportEnv) (r : ExportResult)
    (w : WriteAction) (t : String) (n : Int)
    (ht : env.fm.cardType = some t) (ht2 : t ≠ "")
    (hn : env.fm.cardNumber = some (.vnum n))
    (hf1 : resolveAttachmentFolder env.attachmentSetting env.parentPath ≠ "")
    (hf2 : (resolveAttachmentFolder env.attachmentSetting env.parentPath).data.head?
      ≠ some '/')
    (hr : renderCardToFile env = .ok r) (hw : r.write = some w) :
    w.path = resolveAttachmentFolder env.attachmentSetting env.parentPath
      ++ "/cf-" ++ t ++ "-" ++ padNum (some n) ++ "-"
      ++ jsReplaceSpaces (jsToLowerCase env.basename) ++ ".png" := by
  rw [write_path_eq env r w hr hw]
  unfold exportPath
  rw [show cf_typeOf env.fm = t by simp [cf_typeOf, ht, ht2],
      show cf_numOf env.fm = some n by simp [cf_numOf, hn]]
  show stripLeadingSlashes _ = _
  rw [stripLeadingSlashes_of_head]
  · rfl
  · cases hfd : (resolveAttachmentFolder env.attachmentSetting env.parentPath).data with
    | nil => exact absurd (String.ext hfd) hf1
    | cons c cs =>
      have hc : c ≠ '/' := by
        rw [hfd] at hf2
        simpa using hf2
      simp [String.data_append, hfd, hc]

/-- Witnesses for C1 share this concrete environment: a document
`My Card` of type `hero`, number 3, attachment folder `cards`. -/
def envMyCard : ExportEnv :=
  { blob := some [0], fm := ⟨some "hero", none, some (.vnum 3), none, none⟩,
    basename := "My Card", filePath := "notes/My Card.md",
    attachmentSetting := some "cards", parentPath := some "notes",
    pathExists := fun _ => false, writeOk := true }

/-- The result the export produces on `envMyCard`. -/
def resMyCard : ExportResult :=
  { write := some (.created "cards/cf-hero-003-my-card.png"),
    newImage := some "[[cards/cf-hero-003-my-card.png]]",
    reported := false }

/-- Witness for C1 at the example of the claim: the written path is
`cards/cf-hero-003-my-card.png`. -/
theorem export_writes_computed_path_witness :
    renderCardToFile envMyCard = .ok resMyCard ∧
    (WriteAction.created "cards/cf-hero-003-my-card.png").path
      = resolveAttachmentFolder envMyCard.attachmentSetting envMyCard.parentPath
        ++ "/cf-" ++ "hero" ++ "-" ++ padNum (some 3) ++ "-"
        ++ jsReplaceSpaces (jsToLowerCase envMyCard.basename) ++ ".png" :=
  ⟨rfl,
    export_writes_computed_path envMyCard resMyCard
      (.created "cards/cf-hero-003-my-card.png") "hero" 3 rfl (by decide) rfl
      (by decide) (by decide) rfl rfl⟩

theorem backref_parts (p q : String) :
    linkTarget (stripLeadingBang (generateMarkdownLink p q)) = p ∧
    (stripLeadingBang (generateMarkdownLink p q)).data.head? ≠ some '!' := by
  have hdata : (generateMarkdownLink p q).data
      = '!' :: '[' :: '[' :: (p.data ++ [']', ']']) := by
    have h1 : ("![[" : String).data = ['!', '[', '['] := rfl
    have h2 : ("]]" : String).data = [']', ']'] := rfl
    simp [generateMarkdownLink, String.data_append, h1, h2]
  have hs : generateMarkdownLink p q
      = ⟨'!' :: '[' :: '[' :: (p.data ++ [']', ']'])⟩ := String.ext hdata
  rw [hs]
  have hstrip : stripLeadingBang ⟨'!' :: '[' :: '[' :: (p.data ++ [']', ']'])⟩
      = ⟨'[' :: '[' :: (p.data ++ [']', ']'])⟩ := rfl
  rw [hstrip]
  constructor
  · show linkTarget _ = p
    unfold linkTarget
    have hdrop : (String.mk ('[' :: '[' :: (p.data ++ [']', ']']))).data.drop 2
        = p.data ++ [']', ']'] := rfl
    rw [hdrop]
    have hlen : (p.data ++ [']', ']']).length - 2 = p.data.length := by
      simp [List.length_append]
    rw [hlen, List.take_left]
  · simp

/-- Claim C8: whenever the export returns normally having stored a
back-reference, the stored link text targets exactly the computed
export path, and its leading embed marker is stripped. -/
theorem export_backref_spec (env : ExportEnv) (r : ExportResult) (l : String)
    (hr : renderCardToFile env = .ok r) (hl : r.newImage = some l) :
    linkTarget l
      = exportPath env.attachmentSetting env.parentPath env.fm env.basename ∧
    l.data.head? ≠ some '!' := by
  cases hb : env.blob with
  | none =>
    rw [renderCardToFile, hb] at hr
    cases hr
    simp at hl
  | some bs =>
    rw [renderCardToFile, hb] at hr
    by_cases hwo : env.writeOk
    · simp only [hwo, if_true] at hr
      cases hr
      simp only [Option.some.injEq] at hl
      rw [← hl]
      exact backref_parts _ _
    · simp [hwo] at hr

/-- Witness for C8 at the `envMyCard` example. -/
theorem export_backref_spec_witness :
    linkTarget "[[cards/cf-hero-003-my-card.png]]"
      = exportPath envMyCard.attachmentSetting envMyCard.parentPath
          envMyCard.fm envMyCard.basename ∧
    ("[[cards/cf-hero-003-my-card.png]]" : String).data.head? ≠ some '!' :=
  export_backref_spec envMyCard resMyCard "[[cards/cf-hero-003-my-card.png]]"
    rfl rfl

/-- Witness for C7: an environment whose capture returns null. -/
theorem capture_failure_spec_witness :
    renderCardToFile
        { blob := none, fm := {}, basename := "b", filePath := "b.md",
          attachmentSetting := none, parentPath := some "p",
          pathExists := fun _ => false, writeOk := true }
      = .ok { write := none, newImage := none, reported := true } :=
  (capture_failure_spec _).1 rfl

/-! ## Batch render (C6) -/

/-- An export environment whose vault write fails. -/
def envWriteFail : ExportEnv :=
  { blob := some [0], fm := {}, basename := "A", filePath := "A.md",
    attachmentSetting := some "cards", parentPath := some "p",
    pathExists := fun _ => false, writeOk := false }

/-- An export environment that succeeds end to end. -/
def envOk : ExportEnv :=
  { blob := some [0], fm := {}, basename := "B", filePath := "B.md",
    attachmentSetting := some "cards", parentPath := some "p",
    pathExists := fun _ => false, writeOk := true }

/-- An export environment whose capture yields no data but whose write
would succeed. -/
def envCapFail : ExportEnv :=
  { blob := none, fm := {}, basename := "C", filePath := "C.md",
    attachmentSetting := some "cards", parentPath := some "p",
    pathExists := fun _ => false, writeOk := true }

/-- Counterexample to C6 as stated: with two documents where the first
export fails at the storage write, the batch aborts and the second
document is never processed (zero items completed out of two). -/
theorem renderTaggedCards_abort_cex :
    [envWriteFail, envOk].length = 2 ∧
    renderTaggedCards [envWriteFail, envOk] = ([], true) :=
  ⟨rfl, rfl⟩

theorem renderTaggedCards_cons_ok (e : ExportEnv) (rest : List ExportEnv)
    (r : ExportResult) (hr : renderCardToFile e = .ok r) :
    renderTaggedCards (e :: rest)
      = (r :: (renderTaggedCards rest).1, (renderTaggedCards rest).2) := by
  have h2 : (match renderCardToFile e with
      | Except.error _ => (([] : List ExportResult), true)
      | Except.ok r => (r :: (renderTaggedCards rest).1, (renderTaggedCards rest).2))
      = (r :: (renderTaggedCards rest).1, (renderTaggedCards rest).2) := by
    rw [hr]
  exact h2

/-- Claim C6, amended: when no write fails, the batch never aborts, every
document in the list is processed, and a capture failure is reported
for its item (no write happens for it) while the batch continues. -/
theorem renderTaggedCards_isolates_capture_failures (envs : List ExportEnv)
    (h : (envs.all fun e => e.writeOk) = true) :
    (renderTaggedCards envs).2 = false ∧
    (renderTaggedCards envs).1.length = envs.length ∧
    ∀ i (hi : i < envs.length) (hi2 : i < (renderTaggedCards envs).1.length),
      (envs.get ⟨i, hi⟩).blob = none →
      ((renderTaggedCards envs).1.get ⟨i, hi2⟩).write = none ∧
      ((renderTaggedCards envs).1.get ⟨i, hi2⟩).reported = true := by
  induction envs with
  | nil => exact ⟨rfl, rfl, fun i hi => absurd hi (by simp)⟩
  | cons e rest ih =>
    rw [List.all_cons, Bool.and_eq_true] at h
    obtain ⟨he, hrest⟩ := h
    have ihs := ih hrest
    have hok : ∃ r, renderCardToFile e = .ok r ∧
        (e.blob = none → r.write = none ∧ r.reported = true) := by
      cases hb : e.blob with
      | none =>
        refine ⟨{ write := none, newImage := none, reported := true }, ?_,
          fun _ => ⟨rfl, rfl⟩⟩
        rw [renderCardToFile, hb]
      | some bs =>
        have hne : renderCardToFile e ≠ .error () := by
          rw [renderCardToFile, hb]
          simp [he]
        cases hres : renderCardToFile e with
        | error u => cases u; exact absurd hres hne
        | ok r0 =>
          exact ⟨r0, rfl, fun hc => Option.noConfusion hc⟩
    obtain ⟨r, hr, hnone⟩ := hok
    rw [renderTaggedCards_cons_ok e rest r hr]
    refine ⟨ihs.1, ?_, ?_⟩
    · have hlen := ihs.2.1
      simp only [List.length_cons]
      omega
    · intro i hi hi2 hb
      cases i with
      | zero => exact hnone hb
      | succ i =>
        have hi2a : i < (renderTaggedCards rest).1.length :=
          Nat.lt_of_succ_lt_succ hi2
        exact ihs.2.2 i (Nat.lt_of_succ_lt_succ hi) hi2a hb

/-- Witness for the amended C6: one capture failure followed by one
success; both items are processed and the failure is reported. -/
theorem renderTaggedCards_isolates_witness :
    (([envCapFail, envOk].all fun e => e.writeOk) = true) ∧
    ((renderTaggedCards [envCapFail, envOk]).2 = false ∧
      (renderTaggedCards [envCapFail, envOk]).1.length = [envCapFail, envOk].length ∧
      ∀ i (hi : i < [envCapFail, envOk].length)
          (hi2 : i < (renderTaggedCards [envCapFail, envOk]).1.length),
        ([envCapFail, envOk].get ⟨i, hi⟩).blob = none →
        ((renderTaggedCards [envCapFail, envOk]).1.get ⟨i, hi2⟩).write = none ∧
        ((renderTaggedCards [envCapFail, envOk]).1.get ⟨i, hi2⟩).reported = true) :=
  ⟨rfl, renderTaggedCards_isolates_capture_failures [envCapFail, envOk] rfl⟩

/-! ## Numbering (C3, C4, C5) -/

theorem seedFold_eq (files : List Frontmatter) :
    ∀ a : Int, wellNumbered files = true →
      files.foldl seedStep (some a) = some (1 + files.foldl maxStep (a - 1)) := by
  induction files with
  | nil =>
    intro a _
    simp only [List.foldl, Option.some.injEq]
    omega
  | cons fm rest ih =>
    intro a h
    rw [wellNumbered, List.all_cons, Bool.and_eq_true] at h
    obtain ⟨hfm, hrest⟩ := h
    have hrest2 : wellNumbered rest = true := hrest
    simp only [List.foldl]
    cases hv : fm.cardNumber with
    | none =>
      rw [show seedStep (some a) fm = some a by simp [seedStep, hv],
          ih a hrest2,
          show maxStep (a - 1) fm = a - 1 by simp [maxStep, hv]]
    | some v =>
      rw [hv] at hfm
      obtain ⟨n, rfl⟩ : ∃ n, v = .vnum n := by
        cases v <;> simp_all [FmVal.isInt]
      rw [show seedStep (some a) fm = some (max a (n + 1)) by
            simp [seedStep, hv, jsAdd1, jsToNumber, jsMax],
          ih _ hrest2,
          show maxStep (a - 1) fm = max (a - 1) n by simp [maxStep, hv],
          show max a (n + 1) - 1 = max (a - 1) n by omega]

theorem numberSeed_eq (files : List Frontmatter) (h : wellNumbered files = true) :
    numberSeed files = some (1 + maxExisting files) := by
  have hs := seedFold_eq files 1 h
  rw [show (1 : Int) - 1 = 0 by omega] at hs
  exact hs

theorem assignLoop_some_eq_assignFrom :
    ∀ (files : List Frontmatter) (s : Int),
      assignLoop (some s) files = assignFrom s files := by
  intro files
  induction files with
  | nil => intro s; rfl
  | cons fm rest ih =>
    intro s
    cases hv : fm.cardNumber with
    | none => simp [assignLoop, assignFrom, hv, ofJsNum, ih]
    | some v => simp [assignLoop, assignFrom, hv, ih]

theorem assignLoop_length :
    ∀ (files : List Frontmatter) (next : JsNum),
      (assignLoop next files).length = files.length := by
  intro files
  induction files with
  | nil => intro next; rfl
  | cons fm rest ih =>
    intro next
    cases hv : fm.cardNumber with
    | none => simp [assignLoop, hv, ih]
    | some v => simp [assignLoop, hv, ih]

theorem assignLoop_preserves :
    ∀ (files : List Frontmatter) (next : JsNum) (i : Nat)
      (hi : i < files.length) (hi2 : i < (assignLoop next files).length)
      (v : FmVal),
      (files.get ⟨i, hi⟩).cardNumber = some v →
      (assignLoop next files).get ⟨i, hi2⟩ = files.get ⟨i, hi⟩ := by
  intro files
  induction files with
  | nil => intro next i hi; exact absurd hi (by simp)
  | cons fm rest ih =>
    intro next i hi hi2 v hv
    obtain ⟨ct, ctt, cn, ci, cc⟩ := fm
    cases cn with
    | none =>
      cases i with
      | zero => exact Option.noConfusion hv
      | succ i =>
        have hi2a : i < (assignLoop (next.map (· + 1)) rest).length := by
          rw [assignLoop_length]
          exact Nat.lt_of_succ_lt_succ hi
        exact ih (next.map (· + 1)) i (Nat.lt_of_succ_lt_succ hi) hi2a v hv
    | some w =>
      cases i with
      | zero => rfl
      | succ i =>
        have hi2a : i < (assignLoop next rest).length := by
          rw [assignLoop_length]
          exact Nat.lt_of_succ_lt_succ hi
        exact ih next i (Nat.lt_of_succ_lt_succ hi) hi2a v hv

theorem assignLoop_all_some :
    ∀ (files : List Frontmatter) (next : JsNum) (fm : Frontmatter),
      fm ∈ assignLoop next files → fm.cardNumber ≠ none := by
  intro files
  induction files with
  | nil => intro next fm hm; cases hm
  | cons f rest ih =>
    intro next fm hm
    obtain ⟨ct, ctt, cn, ci, cc⟩ := f
    cases cn with
    | none =>
      cases hm with
      | head => exact Option.some_ne_none _
      | tail _ h => exact ih _ fm h
    | some w =>
      cases hm with
      | head => exact Option.some_ne_none _
      | tail _ h => exact ih _ fm h

theorem assignLoop_id_of_all_some :
    ∀ (files : List Frontmatter) (next : JsNum),
      (∀ fm ∈ files, fm.cardNumber ≠ none) → assignLoop next files = files := by
  intro files
  induction files with
  | nil => intro next _; rfl
  | cons f rest ih =>
    intro next h
    obtain ⟨ct, ctt, cn, ci, cc⟩ := f
    cases cn with
    | none => exact absurd rfl (h _ (List.mem_cons_self _ _))
    | some w =>
      have htail := ih next fun fm hm => h fm (List.mem_cons_of_mem _ hm)
      exact congrArg (List.cons _) htail

theorem numberCards_idem (files : List Frontmatter) :
    numberCards (numberCards files) = numberCards files :=
  assignLoop_id_of_all_some _ _
    (fun fm hm => assignLoop_all_some files (numberSeed files) fm hm)

/-- Claim C3: with every present number field numeric, the batch seeds its
counter at one more than the maximum existing number (default 0),
assigns consecutive integers in iteration order to exactly the
documents lacking a number field (the refinement to `assignFrom`), and
a second run changes nothing. -/
theorem numberCards_spec (files : List Frontmatter)
    (h : wellNumbered files = true) :
    numberSeed files = some (1 + maxExisting files) ∧
    numberCards files = assignFrom (1 + maxExisting files) files ∧
    numberCards (numberCards files) = numberCards files := by
  have hseed := numberSeed_eq files h
  refine ⟨hseed, ?_, numberCards_idem files⟩
  rw [numberCards, hseed, assignLoop_some_eq_assignFrom]

/-- The example of the claim: existing numbers 1 and 3 and two
unnumbered documents. -/
def filesC3 : List Frontmatter :=
  [⟨none, none, some (.vnum 1), none, none⟩,
   ⟨none, none, some (.vnum 3), none, none⟩, {}, {}]

/-- Witness for C3: the two unnumbered documents receive 4 and 5 in
iteration order, and the second run assigns nothing. -/
theorem numberCards_spec_witness :
    wellNumbered filesC3 = true ∧
    (numberSeed filesC3 = some (1 + maxExisting filesC3) ∧
      numberCards filesC3 = assignFrom (1 + maxExisting filesC3) filesC3 ∧
      numberCards (numberCards filesC3) = numberCards filesC3) ∧
    numberCards filesC3
      = [⟨none, none, some (.vnum 1), none, none⟩,
         ⟨none, none, some (.vnum 3), none, none⟩,
         ⟨none, none, some (.vnum 4), none, none⟩,
         ⟨none, none, some (.vnum 5), none, none⟩] :=
  ⟨by decide, numberCards_spec filesC3 (by decide), by decide⟩

theorem assignFrom_length :
    ∀ (files : List Frontmatter) (s : Int),
      (assignFrom s files).length = files.length := by
  intro files
  induction files with
  | nil => intro s; rfl
  | cons fm rest ih =>
    intro s
    cases hv : fm.cardNumber with
    | none => simp [assignFrom, hv, ih]
    | some v => simp [assignFrom, hv, ih]

theorem assignFrom_ge :
    ∀ (files : List Frontmatter) (s : Int) (i : Nat)
      (hi : i < files.length) (hi2 : i < (assignFrom s files).length)
      (k : Int),
      (files.get ⟨i, hi⟩).cardNumber = none →
      ((assignFrom s files).get ⟨i, hi2⟩).cardNumber = some (.vnum k) →
      s ≤ k := by
  intro files
  induction files with
  | nil => intro s i hi; exact absurd hi (by simp)
  | cons fm rest ih =>
    intro s i hi hi2 k hnone hk
    obtain ⟨ct, ctt, cn, ci, cc⟩ := fm
    cases cn with
    | none =>
      cases i with
      | zero =>
        have hs : s = k := FmVal.vnum.inj (Option.some.inj hk)
        omega
      | succ i =>
        have hi2a : i < (assignFrom (s + 1) rest).length := by
          rw [assignFrom_length]
          exact Nat.lt_of_succ_lt_succ hi
        have := ih (s + 1) i (Nat.lt_of_succ_lt_succ hi) hi2a k hnone hk
        omega
    | some w =>
      cases i with
      | zero => exact Option.noConfusion hnone
      | succ i =>
        have hi2a : i < (assignFrom s rest).length := by
          rw [assignFrom_length]
          exact Nat.lt_of_succ_lt_succ hi
        exact ih s i (Nat.lt_of_succ_lt_succ hi) hi2a k hnone hk

theorem le_maxStep (a : Int) (fm : Frontmatter) : a ≤ maxStep a fm := by
  obtain ⟨ct, ctt, cn, ci, cc⟩ := fm
  cases cn with
  | none => exact le_refl a
  | some v =>
    cases v with
    | vnum n => exact le_max_left a n
    | vNaN => exact le_refl a
    | vstr s => exact le_refl a

theorem le_foldl_maxStep :
    ∀ (files : List Frontmatter) (a : Int), a ≤ files.foldl maxStep a := by
  intro files
  induction files with
  | nil => intro a; exact le_refl a
  | cons fm rest ih =>
    intro a
    exact le_trans (le_maxStep a fm) (ih (maxStep a fm))

theorem foldl_maxStep_ge_elem :
    ∀ (files : List Frontmatter) (a : Int) (j : Nat)
      (hj : j < files.length) (m : Int),
      (files.get ⟨j, hj⟩).cardNumber = some (.vnum m) →
      m ≤ files.foldl maxStep a := by
  intro files
  induction files with
  | nil => intro a j hj; exact absurd hj (by simp)
  | cons fm rest ih =>
    intro a j hj m hm
    cases j with
    | zero =>
      refine le_trans ?_ (le_foldl_maxStep rest (maxStep a fm))
      obtain ⟨ct, ctt, cn, ci, cc⟩ := fm
      have hm2 : cn = some (.vnum m) := hm
      rw [hm2]
      exact le_max_right a m
    | succ j =>
      exact ih (maxStep a fm) j (Nat.lt_of_succ_lt_succ hj) m hm

/-- Claim C4: the batch never reassigns a present number field (that entry of
the list is unchanged), and, with every present number numeric, every
number it does assign is strictly greater than every number existing
before the batch. -/
theorem numberCards_invariant (files : List Frontmatter)
    (h : wellNumbered files = true) :
    (∀ i (hi : i < files.length) (hi2 : i < (numberCards files).length)
        (v : FmVal),
      (files.get ⟨i, hi⟩).cardNumber = some v →
      (numberCards files).get ⟨i, hi2⟩ = files.get ⟨i, hi⟩) ∧
    (∀ i (hi : i < files.length) (hi2 : i < (numberCards files).length)
        (k : Int) (j : Nat) (hj : j < files.length) (m : Int),
      (files.get ⟨i, hi⟩).cardNumber = none →
      ((numberCards files).get ⟨i, hi2⟩).cardNumber = some (.vnum k) →
      (files.get ⟨j, hj⟩).cardNumber = some (.vnum m) →
      m < k) := by
  constructor
  · intro i hi hi2 v hv
    exact assignLoop_preserves files (numberSeed files) i hi hi2 v hv
  · have heq : numberCards files = assignFrom (1 + maxExisting files) files := by
      rw [numberCards, numberSeed_eq files h, assignLoop_some_eq_assignFrom]
    intro i hi
    rw [heq]
    intro hi2 k j hj m hnone hk hm
    have hge : 1 + maxExisting files ≤ k :=
      assignFrom_ge files (1 + maxExisting files) i hi hi2 k hnone hk
    have hle : m ≤ maxExisting files := foldl_maxStep_ge_elem files 0 j hj m hm
    omega

/-- Witness for C4: one numbered document (3) and one unnumbered; the
numbered one is untouched and the assigned 4 exceeds 3. -/
theorem numberCards_invariant_witness :
    wellNumbered [⟨none, none, some (.vnum 3), none, none⟩, {}] = true ∧
    ((∀ i (hi : i < ([⟨none, none, some (.vnum 3), none, none⟩, {}] : List Frontmatter).length)
        (hi2 : i < (numberCards [⟨none, none, some (.vnum 3), none, none⟩, {}]).length)
        (v : FmVal),
      (([⟨none, none, some (.vnum 3), none, none⟩, {}] : List Frontmatter).get ⟨i, hi⟩).cardNumber = some v →
      (numberCards [⟨none, none, some (.vnum 3), none, none⟩, {}]).get ⟨i, hi2⟩
        = ([⟨none, none, some (.vnum 3), none, none⟩, {}] : List Frontmatter).get ⟨i, hi⟩) ∧
    (∀ i (hi : i < ([⟨none, none, some (.vnum 3), none, none⟩, {}] : List Frontmatter).length)
        (hi2 : i < (numberCards [⟨none, none, some (.vnum 3), none, none⟩, {}]).length)
        (k : Int) (j : Nat)
        (hj : j < ([⟨none, none, some (.vnum 3), none, none⟩, {}] : List Frontmatter).length)
        (m : Int),
      (([⟨none, none, some (.vnum 3), none, none⟩, {}] : List Frontmatter).get ⟨i, hi⟩).cardNumber = none →
      ((numberCards [⟨none, none, some (.vnum 3), none, none⟩, {}]).get ⟨i, hi2⟩).cardNumber
        = some (.vnum k) →
      (([⟨none, none, some (.vnum 3), none, none⟩, {}] : List Frontmatter).get ⟨j, hj⟩).cardNumber
        = some (.vnum m) →
      m < k)) ∧
    numberCards [⟨none, none, some (.vnum 3), none, none⟩, {}]
      = [⟨none, none, some (.vnum 3), none, none⟩,
         ⟨none, none, some (.vnum 4), none, none⟩] :=
  ⟨by decide, numberCards_invariant _ (by decide), by decide⟩

/-- A frontmatter block whose number field holds the string `"5"`. -/
def fmStr5 : Frontmatter := ⟨none, none, some (.vstr "5"), none, none⟩

/-- Counterexample to C5 as stated: the numbering batch does not treat
the string-valued number field as absent.  The document holding the
string `"5"` is skipped (still the string afterwards) and the string is
coerced — `"5" + 1` is `"51"` — so the companion document receives 51;
had the field been treated as absent, both documents would have
received 1 and 2 as in the second run. -/
theorem numbering_string_coercion_cex :
    fmStr5.cardNumber = some (.vstr "5") ∧
    numberCards [fmStr5, {}]
      = [fmStr5, ⟨none, none, some (.vnum 51), none, none⟩] ∧
    numberCards [{}, {}]
      = [⟨none, none, some (.vnum 1), none, none⟩,
         ⟨none, none, some (.vnum 2), none, none⟩] :=
  ⟨rfl, by decide, by decide⟩

/-- Claim C5, amended: the card layout and the export-path computation treat
a string-valued number field as absent with no coercion; the numbering
batch instead treats any present value as present — it skips such a
document, and the value participates, JS-coerced, in seeding the
counter. -/
theorem nonnumeric_number_treatment (fm : Frontmatter) (s b body : String)
    (hn : fm.cardNumber = some (.vstr s)) :
    (renderCard fm b body).numberText = none ∧
    cf_numOf fm = some 0 ∧
    (∀ acc, seedStep acc fm = jsMax acc (jsToNumber (.vstr (s ++ "1")))) ∧
    (∀ (files : List Frontmatter) i (hi : i < files.length)
        (hi2 : i < (numberCards files).length),
      files.get ⟨i, hi⟩ = fm → (numberCards files).get ⟨i, hi2⟩ = fm) := by
  refine ⟨by simp [renderCard, hn], by simp [cf_numOf, hn], ?_, ?_⟩
  · intro acc
    simp [seedStep, hn, jsAdd1]
  · intro files i hi hi2 hget
    have hv : (files.get ⟨i, hi⟩).cardNumber = some (.vstr s) := by rw [hget, hn]
    have hpres := assignLoop_preserves files (numberSeed files) i hi hi2 (.vstr s) hv
    rw [hget] at hpres
    exact hpres

/-- Witness for the amended C5 at the string `"5"`. -/
theorem nonnumeric_number_treatment_witness :
    fmStr5.cardNumber = some (.vstr "5") ∧
    ((renderCard fmStr5 "b" "x").numberText = none ∧
      cf_numOf fmStr5 = some 0 ∧
      (∀ acc, seedStep acc fmStr5 = jsMax acc (jsToNumber (.vstr ("5" ++ "1")))) ∧
      (∀ (files : List Frontmatter) i (hi : i < files.length)
          (hi2 : i < (numberCards files).length),
        files.get ⟨i, hi⟩ = fmStr5 → (numberCards files).get ⟨i, hi2⟩ = fmStr5)) :=
  ⟨rfl, nonnumeric_number_treatment fmStr5 "5" "b" "x" rfl⟩

end CardForge
